import Mathlib

/-!
Verification development for the smart-webscraper-products pipeline.

Shallow embedding of the fetch-harvest-extract-persist pipeline:
- persistence (`src/storage/database.py`: `get_db`, `save_products`;
  `src/storage/models.py`: the `Product` table),
- orchestration (`src/agents/scraper_agent.py`: `run_scraper_agent`),
- navigation (`src/scrapers/browser.py`: `navigate_to_url`, `route_intercept`,
  `new_page`),
- harvesting (`src/scrapers/page_scraper.py`: `scrape_page`),
- extraction (`src/extractors/llm_extractor.py`: `ProductData.parse_price`,
  the response-recovery and validation logic of `extract_products_from_html`).

Machine-level effects (network, SQL engine, browser) are modelled by explicit
state passing; Python exceptions are modelled with `Except`/`Option` values.
-/

namespace SmartWebscraper

/-! ## Persistence layer (`src/storage/database.py`, `src/storage/models.py`) -/

/-- A product record as handed to `save_products`: the `product_dict` built in
`run_scraper_agent` (src/agents/scraper_agent.py).  Only fields relevant to
persistence are modelled; prices are rationals (Python floats of the form
produced by `float` on decimal strings). -/
structure ProductRec where
  name : String
  price : Option ℚ
  currency : String
  source_url : String
  company_name : String
  deriving DecidableEq, Repr

/-- The (source_url, company_name) pair that `save_products` filters on. -/
def keyOf (r : ProductRec) : String × String :=
  (r.source_url, r.company_name)

/-- The committed rows of the `products` table.  `src/storage/models.py`
declares only a non-unique `Index("idx_product_company_url", ...)` on
(company_name, source_url): the table itself has no uniqueness constraint and
accepts duplicate key pairs. -/
abbrev ProductTable := List ProductRec

/-- The existence check of `save_products`:
`db.query(Product).filter(Product.source_url == ..., Product.company_name == ...).first()`.
The session factory is built with `autoflush=False`, so this query sees only
rows committed before the current batch, never the batch's own pending
inserts. -/
def existsKey (db : ProductTable) (k : String × String) : Bool :=
  db.any (fun r => keyOf r == k)

/-- Number of rows of `db` carrying key `k`. -/
def countKey (db : ProductTable) (k : String × String) : Nat :=
  db.countP (fun r => keyOf r == k)

/-- The `for product_data in products` loop of `save_products`
(src/storage/database.py lines 60-71): each record is checked against the
committed table `db` (see `existsKey`); unseen records are staged with
`db.add` and counted.  Returns the staged inserts (in batch order) and
`saved_count`. -/
def save_loop (db : ProductTable) : List ProductRec → ProductTable × Nat
  | [] => ([], 0)
  | p :: ps =>
    let rest := save_loop db ps
    if existsKey db (keyOf p) then rest
    else (p :: rest.1, rest.2 + 1)

/-- Model of `save_products(products, db)` (src/storage/database.py lines 49-76): run
the staging loop, then `db.commit()` appends the staged rows to the committed
table.  Returns the new committed table and the saved count. -/
def save_products (products : List ProductRec) (db : ProductTable) :
    ProductTable × Nat :=
  let r := save_loop db products
  (db ++ r.1, r.2)

/-- Failure-instrumented variant of the `save_products` loop: `failAt = some j`
means the j-th iteration raises an unexpected exception (e.g. the query
fails) before staging its record.  `j` is the index of the current record. -/
def save_loop_tx (db : ProductTable) (failAt : Option Nat) :
    Nat → List ProductRec → Except String (ProductTable × Nat)
  | _, [] => .ok ([], 0)
  | j, p :: ps =>
    if failAt == some j then .error "persistence failure"
    else
      match save_loop_tx db failAt (j + 1) ps with
      | .error e => .error e
      | .ok rest =>
        if existsKey db (keyOf p) then .ok rest
        else .ok (p :: rest.1, rest.2 + 1)

/-- Model of `save_products` with the exception channel: on success the single
`db.commit()` at the end of the function appends every staged insert at once;
an exception propagates with nothing committed (`autoflush=False`: staged
inserts are never flushed by the loop's queries). -/
def save_products_tx (products : List ProductRec) (db : ProductTable)
    (failAt : Option Nat) : Except String (ProductTable × Nat) :=
  match save_loop_tx db failAt 0 products with
  | .error e => .error e
  | .ok r => .ok (db ++ r.1, r.2)

/-- Model of `with get_db() as db: save_products(batch, db)` (src/storage/database.py
lines 29-47): on an exception the context manager rolls the session back —
the committed table is unchanged — and re-raises; on normal completion the
batch was already committed by `save_products` (the context manager's own
final `db.commit()` commits an empty transaction).  Returns the committed
table after the call together with the surfaced outcome. -/
def run_save_tx (products : List ProductRec) (db : ProductTable)
    (failAt : Option Nat) : ProductTable × Except String Nat :=
  match save_products_tx products db failAt with
  | .ok r => (r.1, .ok r.2)
  | .error e => (db, .error e)

/-! ## Orchestrator (`src/agents/scraper_agent.py`, `run_scraper_agent`) -/

/-- One candidate site as seen by the orchestrator loop, together with the
outcome of its external interactions: `navError` is the error component of
`browser.navigate_to_url(url)`; `products` is what
`extract_products_from_html` returns for the page; `persistFailAt = some j`
means the save of the j-th product raises a persistence failure. -/
structure SiteSpec where
  url : String
  navError : Option String
  products : List ProductRec
  persistFailAt : Option Nat

/-- The summary dictionary returned by `run_scraper_agent`. -/
structure RunSummary where
  success : Bool
  message : String
  websites_scraped : Nat
  products_found : Nat
  products_saved : Nat
  deriving DecidableEq, Repr

/-- The `for product in products` persistence loop of one site
(src/agents/scraper_agent.py lines 186-217): each product is saved by its own
`save_products([product_dict], db)` call, which commits individually;
`total_saved` and `all_products` are updated after each successful save.  A
persistence failure at index `j` raises out of the `with get_db()` block
(which rolls back only the — empty — pending transaction) and is caught by
the per-site `except Exception` handler: earlier commits of the same site are
retained.  Returns (committed table, saved count, appended-product count). -/
def persist_loop (failAt : Option Nat) : Nat → ProductTable → List ProductRec →
    ProductTable × Nat × Nat
  | _, db, [] => (db, 0, 0)
  | j, db, p :: ps =>
    if failAt == some j then (db, 0, 0)
    else
      let r1 := save_products [p] db
      let rest := persist_loop failAt (j + 1) r1.1 ps
      (rest.1, r1.2 + rest.2.1, 1 + rest.2.2)

/-- One iteration of the `for website in websites` loop: a navigation error or
an empty extraction skips the site (`continue`); otherwise its products are
persisted.  Every exception inside the iteration is caught by the per-site
`except Exception` handler, so the iteration always falls through to the next
site. -/
def process_site (db : ProductTable) (s : SiteSpec) : ProductTable × Nat × Nat :=
  match s.navError with
  | some _ => (db, 0, 0)
  | none =>
    match s.products with
    | [] => (db, 0, 0)
    | _ => persist_loop s.persistFailAt 0 db s.products

/-- The site loop, accumulating `total_saved` and the length of
`all_products`. -/
def run_loop : List SiteSpec → ProductTable → ProductTable × Nat × Nat
  | [], db => (db, 0, 0)
  | s :: rest, db =>
    let r1 := process_site db s
    let r2 := run_loop rest r1.1
    (r2.1, r1.2.1 + r2.2.1, r1.2.2 + r2.2.2)

/-- Model of `run_scraper_agent` (src/agents/scraper_agent.py lines 119-236), after the
search step: `sites` is the candidate list returned by `search_websites`.  An
empty list returns the "No websites found" failure summary (whose dictionary
carries no `websites_scraped` key; `main.py` reads it with a default of 0).
Otherwise every site is processed and the summary reports
`len(websites)` as `websites_scraped` and in the success message, regardless
of per-site failures. -/
def run_scraper_agent (sites : List SiteSpec) (db : ProductTable) :
    RunSummary × ProductTable :=
  if sites.isEmpty then
    ({ success := false
       message := "No websites found for the search query"
       websites_scraped := 0
       products_found := 0
       products_saved := 0 }, db)
  else
    let r := run_loop sites db
    ({ success := true
       message := "Successfully scraped " ++ toString sites.length ++ " websites"
       websites_scraped := sites.length
       products_found := r.2.2
       products_saved := r.2.1 }, r.1)

/-! ## Navigation (`src/scrapers/browser.py`, `navigate_to_url`) -/

/-- Result of `navigate_to_url`: the returned `(page, error_message)` pair,
plus instrumentation of the loop — how many attempts were performed and which
page handles are still open when the function returns.  Page handles are
numbered by the attempt that opened them. -/
structure NavResult where
  page : Option Nat
  errorMsg : Option String
  attempts_made : Nat
  open_pages : List Nat
  deriving DecidableEq, Repr

/-- The `for attempt in range(retries)` loop (src/scrapers/browser.py lines
138-158).  `goto a = none` means attempt `a`'s `page.goto` succeeds;
`goto a = some e` means it raises with message `e`.  Each attempt first opens
a fresh page (`self.new_page()`); on failure the page is closed
(`await page.close()`) before the backoff sleep and next attempt; every
exception is caught inside the loop, so the function never raises. -/
def navigate_loop (goto : Nat → Option String) :
    Nat → Nat → Option String → List Nat → NavResult
  | a, 0, lastErr, pages => ⟨none, lastErr, a, pages⟩
  | a, fuel + 1, _, pages =>
    let pages1 := a :: pages
    match goto a with
    | none => ⟨some a, none, a + 1, pages1⟩
    | some e => navigate_loop goto (a + 1) fuel (some e) (pages1.erase a)

/-- Model of `navigate_to_url(url, ..., retries)`: run the attempt loop starting from
attempt 0 with no pages open and `last_error = None`; after exhausting all
attempts return `(None, last_error)`. -/
def navigate_to_url (goto : Nat → Option String) (retries : Nat) : NavResult :=
  navigate_loop goto 0 retries none []

/-! ## Request interception (`src/scrapers/browser.py`, `route_intercept`,
`new_page`) -/

/-- A network request as observed by a Playwright route handler. -/
structure RouteRequest where
  url : String
  resource_type : String
  deriving DecidableEq, Repr

/-- Outcome of running `route_intercept` on one request.  `attrError` models a
raised `AttributeError`: the handler evaluated an attribute that does not
exist on the route object, so the request is neither aborted nor
continued. -/
inductive RouteAction where
  | abort
  | continue_
  | attrError (msg : String)
  deriving DecidableEq, Repr

/-- The denylist of `route_intercept`. -/
def blocked_domains : List String :=
  ["google-analytics", "doubleclick", "facebook.com/tr", "criteo", "hotjar", "sentry"]

/-- Substring containment, modelling Python's `domain in url`. -/
def strContains (s sub : String) : Bool :=
  decide (sub.data <:+: s.data)

/-- Model of `route_intercept` (src/scrapers/browser.py lines 63-84): abort denylisted
URLs, abort image/media resources, continue fonts; the fall-through line is
`await route.continue_90` — `Route` has no attribute `continue_90`, so every
other request raises `AttributeError` instead of being continued. -/
def route_intercept (req : RouteRequest) : RouteAction :=
  if blocked_domains.any (fun d => strContains req.url d) then .abort
  else if req.resource_type == "image" || req.resource_type == "media" then .abort
  else if req.resource_type == "font" then .continue_
  else .attrError "Route object has no attribute continue_90"

/-- The route handlers installed by `new_page` (src/scrapers/browser.py lines
86-110) on the page it creates: the function sets extra headers and an init
script but never calls `page.route`, so no handler — in particular not
`route_intercept` — is registered. -/
def new_page_route_handlers : List (RouteRequest → RouteAction) := []

/-! ## JSON values and parsing (model of Python's `json.loads` on the subset
used by the extractor: objects, arrays, strings without `\u` escapes, numbers,
booleans, null) -/

/-- A parsed JSON value. -/
inductive JVal where
  | null
  | bool (b : Bool)
  | num (q : ℚ)
  | str (s : String)
  | arr (items : List JVal)
  | obj (fields : List (String × JVal))

/-- JSON whitespace: space, line feed, tab, carriage return. -/
def is_ws (c : Char) : Bool :=
  c.toNat == 32 || c.toNat == 10 || c.toNat == 9 || c.toNat == 13

/-- Skip leading JSON whitespace. -/
def skip_ws (l : List Char) : List Char :=
  l.dropWhile is_ws

def digit_val (c : Char) : Nat := c.toNat - '0'.toNat

/-- Consume a maximal run of decimal digits, returning (value, digit count,
rest). -/
def parse_digits (acc n : Nat) : List Char → Nat × Nat × List Char
  | c :: cs =>
    if c.isDigit then parse_digits (acc * 10 + digit_val c) (n + 1) cs
    else (acc, n, c :: cs)
  | [] => (acc, n, [])

/-- Assemble a decimal number from its parts: a signed mantissa read over
`fracLen` fractional digits, scaled by a signed power-of-ten exponent. -/
def make_decimal (mant : Int) (fracLen : Nat) (eNeg : Bool) (e : Nat) : ℚ :=
  if eNeg then mkRat mant (10 ^ fracLen * 10 ^ e)
  else mkRat (mant * (10 : Int) ^ e) (10 ^ fracLen)

/-- The exponent part of a JSON number, after `e`/`E`: optional sign and
digits.  Returns (negative?, magnitude, rest). -/
def parse_exponent (s : List Char) : Option (Bool × Nat × List Char) :=
  let sign : Bool × List Char :=
    match s with
    | '-' :: rest => (true, rest)
    | '+' :: rest => (false, rest)
    | _ => (false, s)
  match sign.2 with
  | c :: _ =>
    if c.isDigit then
      let ep := parse_digits 0 0 sign.2
      some (sign.1, ep.1, ep.2.2)
    else none
  | [] => none

/-- A JSON number: optional minus, integer digits, optional fraction,
optional exponent. -/
def parse_number (s : List Char) : Option (ℚ × List Char) :=
  let sign : Bool × List Char :=
    match s with
    | '-' :: rest => (true, rest)
    | _ => (false, s)
  match sign.2 with
  | c :: _ =>
    if c.isDigit then
      let ip := parse_digits 0 0 sign.2
      let fp : Nat × Nat × List Char :=
        match ip.2.2 with
        | '.' :: fs =>
          match fs with
          | d :: _ => if d.isDigit then parse_digits 0 0 fs else (0, 0, ip.2.2)
          | [] => (0, 0, ip.2.2)
        | _ => (0, 0, ip.2.2)
      let mantNat : Nat := ip.1 * 10 ^ fp.2.1 + fp.1
      let mant : Int := if sign.1 then -(mantNat : Int) else (mantNat : Int)
      match fp.2.2 with
      | 'e' :: es =>
        (parse_exponent es).map (fun r => (make_decimal mant fp.2.1 r.1 r.2.1, r.2.2))
      | 'E' :: es =>
        (parse_exponent es).map (fun r => (make_decimal mant fp.2.1 r.1 r.2.1, r.2.2))
      | rest => some (make_decimal mant fp.2.1 false 0, rest)
    else none
  | [] => none

/-- Common JSON string escapes (the `\uXXXX` form is outside the modelled
subset). -/
def esc_char : Char → Option Char
  | 'n' => some '\n'
  | 't' => some '\t'
  | 'r' => some (Char.ofNat 13)
  | 'b' => some (Char.ofNat 8)
  | 'f' => some (Char.ofNat 12)
  | c => if c == '"' || c == '\\' || c == '/' then some c else none

/-- Body of a JSON string, after the opening quote: returns the decoded
characters and the input after the closing quote. -/
def parse_str_chars : List Char → Option (List Char × List Char)
  | [] => none
  | '"' :: rest => some ([], rest)
  | '\\' :: e :: rest =>
    match esc_char e with
    | some c => (parse_str_chars rest).map (fun r => (c :: r.1, r.2))
    | none => none
  | c :: rest => (parse_str_chars rest).map (fun r => (c :: r.1, r.2))

def lbrace : Char := Char.ofNat 123
def rbrace : Char := Char.ofNat 125

mutual

/-- A JSON value with fuel bounding the recursion depth. -/
def parse_val : Nat → List Char → Option (JVal × List Char)
  | 0, _ => none
  | fuel + 1, s =>
    match skip_ws s with
    | [] => none
    | c :: rest =>
      if c == 'n' then
        if rest.take 3 == ['u', 'l', 'l'] then some (.null, rest.drop 3) else none
      else if c == 't' then
        if rest.take 3 == ['r', 'u', 'e'] then some (.bool true, rest.drop 3) else none
      else if c == 'f' then
        if rest.take 4 == ['a', 'l', 's', 'e'] then some (.bool false, rest.drop 4)
        else none
      else if c == '"' then
        (parse_str_chars rest).map (fun r => (.str (String.mk r.1), r.2))
      else if c == '[' then
        parse_arr_items fuel (skip_ws rest)
      else if c == lbrace then
        parse_obj_fields fuel (skip_ws rest)
      else
        (parse_number (c :: rest)).map (fun r => (.num r.1, r.2))

/-- Array elements, positioned after `[` (whitespace skipped). -/
def parse_arr_items : Nat → List Char → Option (JVal × List Char)
  | 0, _ => none
  | fuel + 1, s =>
    match s with
    | ']' :: rest => some (.arr [], rest)
    | _ =>
      match parse_val fuel s with
      | none => none
      | some (v, rest) =>
        match parse_arr_tail fuel (skip_ws rest) with
        | some (.arr items, rest2) => some (.arr (v :: items), rest2)
        | _ => none

/-- After one array element: either `]` or `,` and more elements. -/
def parse_arr_tail : Nat → List Char → Option (JVal × List Char)
  | 0, _ => none
  | fuel + 1, s =>
    match s with
    | ']' :: rest => some (.arr [], rest)
    | ',' :: rest => parse_arr_items fuel (skip_ws rest)
    | _ => none

/-- Object members, positioned after the opening brace (whitespace
skipped). -/
def parse_obj_fields : Nat → List Char → Option (JVal × List Char)
  | 0, _ => none
  | fuel + 1, s =>
    match s with
    | c :: rest =>
      if c == rbrace then some (.obj [], rest)
      else if c == '"' then
        match parse_str_chars rest with
        | none => none
        | some (kcs, rest1) =>
          match skip_ws rest1 with
          | ':' :: rest2 =>
            match parse_val fuel (skip_ws rest2) with
            | none => none
            | some (v, rest3) =>
              match parse_obj_tail fuel (skip_ws rest3) with
              | some (.obj fields, rest4) =>
                some (.obj ((String.mk kcs, v) :: fields), rest4)
              | _ => none
          | _ => none
      else none
    | [] => none

/-- After one object member: either the closing brace or `,` and more
members. -/
def parse_obj_tail : Nat → List Char → Option (JVal × List Char)
  | 0, _ => none
  | fuel + 1, s =>
    match s with
    | c :: rest =>
      if c == rbrace then some (.obj [], rest)
      else if c == ',' then
        match skip_ws rest with
        | c2 :: rest2 =>
          if c2 == '"' then parse_obj_member fuel (c2 :: rest2) else none
        | [] => none
      else none
    | [] => none

/-- One `"key": value` member followed by the object tail. -/
def parse_obj_member : Nat → List Char → Option (JVal × List Char)
  | 0, _ => none
  | fuel + 1, s =>
    match s with
    | '"' :: rest =>
      match parse_str_chars rest with
      | none => none
      | some (kcs, rest1) =>
        match skip_ws rest1 with
        | ':' :: rest2 =>
          match parse_val fuel (skip_ws rest2) with
          | none => none
          | some (v, rest3) =>
            match parse_obj_tail fuel (skip_ws rest3) with
            | some (.obj fields, rest4) =>
              some (.obj ((String.mk kcs, v) :: fields), rest4)
            | _ => none
        | _ => none
    | _ => none

end

/-- Model of `json.loads`: parse one JSON document; trailing non-whitespace is an
error. -/
def json_parse (s : String) : Option JVal :=
  match parse_val (2 * s.data.length + 2) s.data with
  | some (v, rest) => if (skip_ws rest).isEmpty then some v else none
  | none => none

/-- Dictionary lookup: `json.loads` keeps the last occurrence of a duplicated
key, and so does this lookup. -/
def obj_lookup (fields : List (String × JVal)) (k : String) : Option JVal :=
  (fields.reverse.find? (fun f => f.1 == k)).map (fun f => f.2)

/-! ## Extraction (`src/extractors/llm_extractor.py`) -/

/-- The `ProductData` pydantic model (src/extractors/llm_extractor.py lines
19-26) after validation. -/
structure ProductData where
  name : String
  price : Option ℚ
  currency : String
  image_urls : List String
  product_url : Option String
  deriving DecidableEq, Repr

/-- Model of `re.sub(r"[^\d.]", "", v)`: keep only digits and decimal points. -/
def price_chars (s : String) : List Char :=
  s.data.filter (fun c => c.isDigit || c == '.')

def digits_to_nat (l : List Char) : Nat :=
  l.foldl (fun a c => a * 10 + digit_val c) 0

/-- Python `float(price_str)` restricted to strings of digits and dots (all
other characters were stripped): accepted iff there is at most one dot and at
least one digit. -/
def float_of_digit_dot : List Char → Option ℚ
  | cs =>
    match cs.splitOn '.' with
    | [d] => if d.isEmpty then none else some (mkRat (digits_to_nat d) 1)
    | [a, b] =>
      if a.isEmpty && b.isEmpty then none
      else some (mkRat (digits_to_nat a * 10 ^ b.length + digits_to_nat b) (10 ^ b.length))
    | _ => none

/-- The string branch of `ProductData.parse_price`: strip every character
that is not a digit or a dot, then `float(...)` if the remainder is
non-empty; a `ValueError` yields `None`. -/
def parse_price_str (s : String) : Option ℚ :=
  let cs := price_chars s
  if cs.isEmpty then none else float_of_digit_dot cs

/-- Model of `ProductData.parse_price` (src/extractors/llm_extractor.py lines 28-43),
a `mode="before"` validator on the decoded JSON value of the `price` field:
`None` stays `None`; `int`/`float` (and `bool`, an `int` subtype in Python)
pass through `float`; strings are stripped and parsed; any other shape
returns `None`.  The function is total: no input raises. -/
def parse_price : JVal → Option ℚ
  | .null => none
  | .bool b => some (if b then 1 else 0)
  | .num q => some q
  | .str s => parse_price_str s
  | _ => none

/-- Elements of a `List[str]` pydantic field: every element must be a JSON
string. -/
def strs_of : List JVal → Option (List String)
  | [] => some []
  | .str s :: rest => (strs_of rest).map (fun l => s :: l)
  | _ => none

/-- Model of `ProductData(**product_dict)`: pydantic validation of one decoded record.
`name` must be present and a string (the annotation is `str`, so the empty
string is accepted); `price` runs through `parse_price` when present and
defaults to `None`; `currency` defaults to `"USD"` and must be a string when
present; `image_urls` defaults to `[]` and must be a list of strings;
`product_url` is `Optional[str]`.  Unknown keys are ignored.  A non-object
record, or any field of the wrong shape, raises — caught by the per-record
`except`, dropping only that record. -/
def validate_product : JVal → Option ProductData
  | .obj fields =>
    match obj_lookup fields "name" with
    | some (.str n) =>
      let price :=
        match obj_lookup fields "price" with
        | none => none
        | some pv => parse_price pv
      let currOpt : Option String :=
        match obj_lookup fields "currency" with
        | none => some "USD"
        | some (.str c) => some c
        | some _ => none
      match currOpt with
      | none => none
      | some curr =>
        let urlsOpt : Option (List String) :=
          match obj_lookup fields "image_urls" with
          | none => some []
          | some (.arr items) => strs_of items
          | some _ => none
        match urlsOpt with
        | none => none
        | some urls =>
          let purlOpt : Option (Option String) :=
            match obj_lookup fields "product_url" with
            | none => some none
            | some .null => some none
            | some (.str u) => some (some u)
            | some _ => none
          match purlOpt with
          | none => none
          | some purl => some ⟨n, price, curr, urls, purl⟩
    | _ => none
  | _ => none

/-- The per-record validation loop over the decoded array: failed records are
skipped individually, the rest are kept in order. -/
def validated_products (items : List JVal) : List ProductData :=
  items.filterMap validate_product

/-- Decode a candidate JSON text and validate the records:
`json.loads(json_str)` followed by the `for product_dict in products_data`
loop.  A decode error returns `[]` (the `json.JSONDecodeError` handler); a
document that is not an array also yields `[]` (iterating a number raises
into the outer handler; iterating a dict or string yields non-dict items that
all fail construction). -/
def json_to_products (js : String) : List ProductData :=
  match json_parse js with
  | some (.arr items) => validated_products items
  | some _ => []
  | none => []

/-- Model of `re.search(r"\[.*\]", response_text, re.DOTALL)`: the greedy match runs
from the first `[` that has some later `]` up to the last `]` of the whole
text; `none` when there is no such pair. -/
def first_bracket_slice (l : List Char) : Option (List Char) :=
  match l.dropWhile (fun c => !(c == '[')) with
  | [] => none
  | c :: cs =>
    match ((c :: cs).reverse.dropWhile (fun c2 => !(c2 == ']'))).reverse with
    | [] => none
    | u :: us => some (u :: us)

/-- Python `str.strip()`: drop whitespace at both ends. -/
def py_strip (s : String) : String :=
  String.mk (((s.data.dropWhile is_ws).reverse.dropWhile is_ws).reverse)

/-- The response-processing tail of `extract_products_from_html`
(src/extractors/llm_extractor.py lines 170-196), taking the oracle's raw text
response: strip it, replace it by the `\[.*\]` match when one exists, decode,
and validate each record. -/
def extract_products_from_response (response_text : String) : List ProductData :=
  json_to_products
    (match first_bracket_slice (py_strip response_text).data with
     | some cs => String.mk cs
     | none => py_strip response_text)

/-! ## Harvesting (`src/scrapers/page_scraper.py`, `scrape_page`) -/

/-- An `<img>` element of the rendered page, with the attributes relevant to
image collection.  The DOM `img.src` property is the resolved `src`
attribute, and the empty string when the attribute is absent. -/
structure ImgEl where
  src : Option String
  data_src : Option String
  data_lazy_src : Option String
  data_original : Option String
  srcset : Option String
  deriving DecidableEq, Repr

/-- An open page as observed by `scrape_page`.  `pre_scroll_html` is what
`page.content()` returns in the page's initial (unscrolled) state;
`post_scroll_html` is what it would return after a bottom-of-page scroll pass
has materialized lazy-loaded content.  `json_ld_scripts` are the bodies of
`script[type="application/ld+json"]` elements; `imgs` and `anchors` the
image elements and anchor targets. -/
structure PageModel where
  url : String
  title : String
  pre_scroll_html : String
  post_scroll_html : String
  json_ld_scripts : List String
  imgs : List ImgEl
  anchors : List String

/-- Model of `page.content()` relative to the scroll state. -/
def page_content (p : PageModel) (scrolled : Bool) : String :=
  if scrolled then p.post_scroll_html else p.pre_scroll_html

/-- The JS `img.src` property read by the image-collection script. -/
def js_img_src (img : ImgEl) : String := img.src.getD ""

/-- Model of `extract_structured_data` (src/scrapers/page_scraper.py lines 73-104):
parse each JSON-LD block independently, skip the ones that fail; `none` when
no block parses. -/
def extract_structured_data (p : PageModel) : Option (List JVal) :=
  match p.json_ld_scripts.filterMap json_parse with
  | [] => none
  | parsed => some parsed

/-- The snapshot dictionary built by `scrape_page`. -/
structure ScrapeResult where
  url : String
  title : String
  html : String
  structured_data : Option (List JVal)
  image_urls : List String
  links : List String

/-- Model of `scrape_page(page)` (src/scrapers/page_scraper.py lines 11-70): read the
title, URL, markup, structured data, image URLs (the collection script maps
`img => img.src` and keeps truthy values starting with `"http"`; no
`data-src`/`data-lazy-src`/`data-original`/`srcset` fallback is consulted)
and anchor targets, capped at 50 images and 100 links.  The function performs
no scrolling, so every read happens in the page's initial unscrolled
state. -/
def scrape_page (p : PageModel) : ScrapeResult :=
  let scrolled := false
  { url := p.url
    title := p.title
    html := page_content p scrolled
    structured_data := extract_structured_data p
    image_urls :=
      ((p.imgs.map js_img_src).filter
        (fun s => !(s == "") && s.data.take 4 == ['h', 't', 't', 'p'])).take 50
    links := p.anchors.take 100 }

/-! ## Concrete inputs used by witnesses and counterexamples -/

/-- The record of the spec's idempotence example. -/
def recAcme : ProductRec :=
  ⟨"Tee", some (mkRat 999 100), "USD", "https://a.test/p1", "Acme"⟩

def keyAcme : String × String := ("https://a.test/p1", "Acme")

/-- A page whose lazy content renders only after scrolling. -/
def lazy_page : PageModel :=
  { url := "https://shop.example.com"
    title := "Shop"
    pre_scroll_html := "<div>placeholder</div>"
    post_scroll_html := "<div>placeholder</div><div>lazy products</div>"
    json_ld_scripts := []
    imgs := []
    anchors := [] }

/-- An image element with no `src` attribute but a `data-src`. -/
def lazy_img : ImgEl := ⟨none, some "https://x.test/a.jpg", none, none, none⟩

/-- A page whose only image is lazily loaded via `data-src`. -/
def lazy_img_page : PageModel :=
  { lazy_page with imgs := [lazy_img] }

/-- A page with one ordinary image. -/
def plain_img_page : PageModel :=
  { lazy_page with imgs := [⟨some "https://x.test/ok.jpg", none, none, none, none⟩] }

/-! ## Claim theorems -/

/-- Claim C6: price coercion never raises — a numeric price passes through, a
string price is parsed after stripping every character that is not a digit or
a dot (so `"$29.99"` yields 29.99, and the result depends only on the kept
characters), `"N/A"` and a missing (`null`) price yield an absent price, and
a string whose stripped form is empty or not a float literal also yields an
absent price rather than an error. -/
theorem parse_price_spec :
    (∀ q : ℚ, parse_price (.num q) = some q) ∧
    (∀ s t : String, price_chars s = price_chars t →
      parse_price (.str s) = parse_price (.str t)) ∧
    parse_price (.str "$29.99") = some (mkRat 2999 100) ∧
    parse_price (.str "N/A") = none ∧
    parse_price .null = none ∧
    (∀ s : String, price_chars s = [] → parse_price (.str s) = none) := by
  refine ⟨fun q => rfl, fun s t h => ?_, by decide, by decide, rfl, fun s h => ?_⟩
  · simp only [parse_price, parse_price_str, h]
  · simp [parse_price, parse_price_str, h]

/-- Witness for C6 at concrete inputs: stripping is what makes
`"$15 GBP"` and `"15"` coincide, and the stripped-empty case returns
`none`. -/
theorem parse_price_witness :
    parse_price (.str "$15 GBP") = parse_price (.str "15") ∧
    parse_price (.str "N/A") = none ∧
    parse_price (.str "--") = none := by
  refine ⟨parse_price_spec.2.1 "$15 GBP" "15" (by decide),
          parse_price_spec.2.2.2.1,
          parse_price_spec.2.2.2.2.2 "--" (by decide)⟩

/-- Claim C7 (code bug): no interception policy is in force on pages opened
by the navigation manager — `new_page` never registers a route handler — and
the `route_intercept` handler that exists in the source would abort
denylisted and image/media requests and continue fonts, but its fall-through
branch evaluates the nonexistent attribute `route.continue_90`, so every
other request (here a stylesheet) raises `AttributeError` instead of being
continued. -/
theorem route_intercept_code_bug :
    new_page_route_handlers = [] ∧
    route_intercept ⟨"https://shop.example.com/assets/style.css", "stylesheet"⟩
      = .attrError "Route object has no attribute continue_90" ∧
    route_intercept ⟨"https://www.google-analytics.com/collect", "script"⟩ = .abort ∧
    route_intercept ⟨"https://shop.example.com/hero.jpg", "image"⟩ = .abort ∧
    route_intercept ⟨"https://shop.example.com/f.woff2", "font"⟩ = .continue_ := by
  exact ⟨rfl, by decide, by decide, by decide, by decide⟩

/-- Claim C8 (counterexample): on a page whose extra content renders only
after scrolling, the harvested markup is the pre-scroll markup — the claimed
scroll pass does not happen, so lazy-loaded content has not materialized in
the captured markup. -/
theorem harvest_no_scroll_counterexample :
    (scrape_page lazy_page).html = "<div>placeholder</div>" ∧
    ¬(scrape_page lazy_page).html = lazy_page.post_scroll_html := by
  exact ⟨rfl, by decide⟩

/-- Claim C8 (amended): `scrape_page` performs no scroll pass; the title,
markup, structured data, image URLs and links are read in the page's initial
unscrolled state, so the captured markup is the pre-scroll markup and the
whole snapshot is independent of what the page would contain after
scrolling. -/
theorem harvest_no_scroll_amended :
    ∀ (p : PageModel) (h : String),
      (scrape_page p).html = p.pre_scroll_html ∧
      scrape_page { p with post_scroll_html := h } = scrape_page p := by
  intro p h
  exact ⟨rfl, rfl⟩

/-- Claim C9 (counterexample): an image element with no direct `src`
attribute but `data-src="https://x.test/a.jpg"` contributes nothing — the
snapshot's image list is empty and does not contain the URL, because the
collection script reads only `img.src`. -/
theorem image_data_src_counterexample :
    (scrape_page lazy_img_page).image_urls = [] ∧
    ¬("https://x.test/a.jpg" ∈ (scrape_page lazy_img_page).image_urls) := by
  exact ⟨rfl, by decide⟩

/-- Claim C9 (amended): image URLs are collected from the direct `src`
attribute only — no `data-src`/`data-lazy-src`/`data-original`/`srcset`
fallback is consulted: every collected URL is the `src` of some image element
and starts with `"http"`, and (when the page has at most 50 images) every
image whose `src` starts with `"http"` is collected. -/
theorem image_collection_amended :
    ∀ p : PageModel,
      (∀ u ∈ (scrape_page p).image_urls,
        u.data.take 4 = ['h', 't', 't', 'p'] ∧ ∃ img ∈ p.imgs, img.src = some u) ∧
      (p.imgs.length ≤ 50 → ∀ img ∈ p.imgs, ∀ u : String, img.src = some u →
        u.data.take 4 = ['h', 't', 't', 'p'] → u ∈ (scrape_page p).image_urls) := by
  intro p
  constructor
  · intro u hu
    have hu1 : u ∈ (p.imgs.map js_img_src).filter
        (fun s => !(s == "") && s.data.take 4 == ['h', 't', 't', 'p']) :=
      List.take_subset _ _ hu
    have hu2 := List.mem_filter.mp hu1
    obtain ⟨hmem, hpred⟩ := hu2
    have hne : ¬(u == "") = true := by
      intro hiff
      simp [hiff] at hpred
    have hhttp : u.data.take 4 = ['h', 't', 't', 'p'] := by
      have := (Bool.and_eq_true _ _).mp hpred
      exact beq_iff_eq.mp this.2
    refine ⟨hhttp, ?_⟩
    obtain ⟨img, himg, hsrc⟩ := List.mem_map.mp hmem
    refine ⟨img, himg, ?_⟩
    cases hs : img.src with
    | none =>
      exfalso
      apply hne
      rw [← hsrc]
      simp [js_img_src, hs]
    | some v =>
      have hv : v = u := by
        rw [← hsrc]
        simp [js_img_src, hs]
      subst hv
      rfl
  · intro hlen img himg u hsrc hhttp
    have hne : ¬(u = "") := by
      intro he
      rw [he] at hhttp
      simp at hhttp
    have hjs : js_img_src img = u := by simp [js_img_src, hsrc]
    have hmem : u ∈ p.imgs.map js_img_src := by
      rw [← hjs]
      exact List.mem_map_of_mem js_img_src himg
    have hfil : u ∈ (p.imgs.map js_img_src).filter
        (fun s => !(s == "") && s.data.take 4 == ['h', 't', 't', 'p']) := by
      apply List.mem_filter.mpr
      refine ⟨hmem, ?_⟩
      have h1 : (u == "") = false := beq_eq_false_iff_ne.mpr hne
      have h2 : (u.data.take 4 == ['h', 't', 't', 'p']) = true := beq_iff_eq.mpr hhttp
      simp [h1, h2]
    have hflen : ((p.imgs.map js_img_src).filter
        (fun s => !(s == "") && s.data.take 4 == ['h', 't', 't', 'p'])).length ≤ 50 := by
      calc ((p.imgs.map js_img_src).filter _).length
          ≤ (p.imgs.map js_img_src).length := List.length_filter_le _ _
        _ = p.imgs.length := List.length_map _ _
        _ ≤ 50 := hlen
    show u ∈ ((p.imgs.map js_img_src).filter _).take 50
    rw [List.take_of_length_le hflen]
    exact hfil

/-- Witness for C9's amended statement: on a page with one ordinary image the
direct `src` URL is collected. -/
theorem image_collection_witness :
    plain_img_page.imgs.length ≤ 50 ∧
    "https://x.test/ok.jpg" ∈ (scrape_page plain_img_page).image_urls := by
  refine ⟨by decide, ?_⟩
  exact (image_collection_amended plain_img_page).2 (by decide)
    ⟨some "https://x.test/ok.jpg", none, none, none, none⟩ (by decide)
    "https://x.test/ok.jpg" rfl (by decide)

/-! ## Helper lemmas for the bracket-recovery step -/

theorem dropWhile_append_all {p : Char → Bool} {xs ys : List Char}
    (h : ∀ c ∈ xs, p c = true) :
    (xs ++ ys).dropWhile p = ys.dropWhile p := by
  induction xs with
  | nil => simp
  | cons a l ih =>
    rw [List.cons_append, List.dropWhile_cons, if_pos (h a (by simp))]
    exact ih fun c hc => h c (by simp [hc])

theorem str_mk_data (s : String) : String.mk s.data = s := rfl

theorem first_bracket_slice_spec (p mid q : List Char)
    (hp : '[' ∉ p) (hq : ']' ∉ q) :
    first_bracket_slice (p ++ '[' :: (mid ++ ']' :: q))
      = some ('[' :: (mid ++ [']'])) := by
  have h1 : (p ++ '[' :: (mid ++ ']' :: q)).dropWhile (fun c => !(c == '['))
      = '[' :: (mid ++ ']' :: q) := by
    rw [dropWhile_append_all fun c hc => by
      have hc' : ¬(c = '[') := fun he => hp (he ▸ hc)
      simp [hc']]
    rw [List.dropWhile_cons]
    simp
  have h3 : ((('[' :: (mid ++ ']' :: q)).reverse).dropWhile
      (fun c2 => !(c2 == ']'))).reverse = '[' :: (mid ++ [']']) := by
    have h2 : ('[' :: (mid ++ ']' :: q)).reverse
        = q.reverse ++ ']' :: (mid.reverse ++ ['[']) := by
      simp
    rw [h2]
    rw [dropWhile_append_all fun c hc => by
      have hc' : ¬(c = ']') := fun he => hq (he ▸ (List.mem_reverse.mp hc))
      simp [hc']]
    rw [List.dropWhile_cons]
    simp
  unfold first_bracket_slice
  rw [h1]
  show (match ((('[' :: (mid ++ ']' :: q)).reverse).dropWhile
      (fun c2 => !(c2 == ']'))).reverse with
    | [] => none
    | u :: us => some (u :: us)) = some ('[' :: (mid ++ [']']))
  rw [h3]

/-- Claim C4: for every oracle response whose (stripped) text decomposes as
prose, a bracketed segment, and trailing prose — no `[` before the segment,
no `]` after it — the extractor parses exactly the substring from the first
`[` to the last `]`; and on the spec's concrete example it returns exactly
one candidate named "Tee" with price 9.99 and default currency "USD". -/
theorem extract_recovery_spec :
    (∀ text p mid q : String,
      py_strip text = p ++ "[" ++ mid ++ "]" ++ q →
      '[' ∉ p.data → ']' ∉ q.data →
      extract_products_from_response text = json_to_products ("[" ++ mid ++ "]")) ∧
    extract_products_from_response
        "Here are the items:\n[\x7b\"name\":\"Tee\",\"price\":9.99\x7d]\nEnjoy!"
      = [⟨"Tee", some (mkRat 999 100), "USD", [], none⟩] := by
  constructor
  · intro text p mid q ht hp hq
    unfold extract_products_from_response
    rw [ht]
    have hlb : "[".data = ['['] := rfl
    have hrb : "]".data = [']'] := rfl
    have hdata : (p ++ "[" ++ mid ++ "]" ++ q).data
        = p.data ++ '[' :: (mid.data ++ ']' :: q.data) := by
      simp [String.data_append, hlb, hrb]
    rw [hdata, first_bracket_slice_spec _ _ _ hp hq]
    have htarget : ("[" ++ mid ++ "]").data = '[' :: (mid.data ++ [']']) := by
      simp [String.data_append, hlb, hrb]
    rw [← htarget]
  · decide

/-- Witness for C4: the universal recovery statement applied to the concrete
prose-wrapped response. -/
theorem extract_recovery_witness :
    extract_products_from_response
        "Here are the items:\n[\x7b\"name\":\"Tee\",\"price\":9.99\x7d]\nEnjoy!"
      = json_to_products "[\x7b\"name\":\"Tee\",\"price\":9.99\x7d]" :=
  extract_recovery_spec.1
    "Here are the items:\n[\x7b\"name\":\"Tee\",\"price\":9.99\x7d]\nEnjoy!"
    "Here are the items:\n" "\x7b\"name\":\"Tee\",\"price\":9.99\x7d" "\nEnjoy!"
    (by decide) (by decide) (by decide)

/-- Claim C5 (counterexample): a record whose name is the empty string is not
dropped — pydantic's `name: str` accepts `""` — so a batch of two candidates
where one has an empty name yields two validated candidates, not one. -/
theorem empty_name_accepted_counterexample :
    extract_products_from_response "[\x7b\"name\":\"\"\x7d,\x7b\"name\":\"Tee\"\x7d]"
      = [⟨"", none, "USD", [], none⟩, ⟨"Tee", none, "USD", [], none⟩] ∧
    ¬(extract_products_from_response
        "[\x7b\"name\":\"\"\x7d,\x7b\"name\":\"Tee\"\x7d]").length = 1 := by
  exact ⟨by decide, by decide⟩

/-- Claim C5 (amended): a record with no name field at all (pydantic's
required `str` field missing) is dropped individually, dropping one record
never affects the others in the batch, and a batch of two candidates where
one lacks the name field yields exactly one validated candidate; a record
whose name is present but empty is accepted. -/
theorem record_validation_amended :
    (∀ fields : List (String × JVal), obj_lookup fields "name" = none →
      validate_product (.obj fields) = none) ∧
    (∀ (pre post : List JVal) (bad : JVal), validate_product bad = none →
      validated_products (pre ++ bad :: post) = validated_products (pre ++ post)) ∧
    extract_products_from_response "[\x7b\"price\":1\x7d,\x7b\"name\":\"Tee\"\x7d]"
      = [⟨"Tee", none, "USD", [], none⟩] := by
  refine ⟨fun fields h => ?_, fun pre post bad h => ?_, by decide⟩
  · simp [validate_product, h]
  · simp [validated_products, List.filterMap_append, List.filterMap_cons, h]

/-- Witness for C5: the record lacking a name is dropped and its removal
leaves the valid record of the batch untouched. -/
theorem record_validation_witness :
    validate_product (.obj [("price", .num 1)]) = none ∧
    validated_products [JVal.obj [("price", .num 1)], JVal.obj [("name", .str "Tee")]]
      = validated_products [JVal.obj [("name", .str "Tee")]] := by
  have h1 := record_validation_amended.1 [("price", .num 1)] rfl
  exact ⟨h1, record_validation_amended.2.1 [] [JVal.obj [("name", .str "Tee")]] _ h1⟩

/-! ## Navigation: all-attempts-fail behaviour -/

theorem navigate_loop_all_fail (goto : Nat → Option String) :
    ∀ (fuel a : Nat) (lastE : Option String),
      (∀ i, i < fuel + 1 → (goto (a + i)).isSome) →
      navigate_loop goto a (fuel + 1) lastE [] =
        ⟨none, goto (a + fuel), a + (fuel + 1), []⟩ := by
  intro fuel
  induction fuel with
  | zero =>
    intro a lastE h
    obtain ⟨e, he⟩ := Option.isSome_iff_exists.mp (h 0 (by omega))
    rw [Nat.add_zero] at he
    simp [navigate_loop, he]
  | succ fuel ih =>
    intro a lastE h
    obtain ⟨e, he⟩ := Option.isSome_iff_exists.mp (h 0 (by omega))
    rw [Nat.add_zero] at he
    show (match goto a with
      | none => NavResult.mk (some a) none (a + 1) (a :: [])
      | some e2 => navigate_loop goto (a + 1) (fuel + 1) (some e2) ((a :: []).erase a))
        = ⟨none, goto (a + (fuel + 1)), a + (fuel + 1 + 1), []⟩
    rw [he]
    simp only [List.erase_cons_head]
    rw [ih (a + 1) (some e) (fun i hi => by
      have := h (i + 1) (by omega)
      rw [show a + (i + 1) = a + 1 + i by omega] at this
      exact this)]
    have e1 : a + 1 + fuel = a + (fuel + 1) := by omega
    have e2 : a + 1 + (fuel + 1) = a + (fuel + 1 + 1) := by omega
    rw [e1, e2]

/-- Claim C3: when every navigation attempt fails, `navigate_to_url` performs
exactly `retries` attempts, returns `(None, last_error)` — the failure value
carrying the last observed error text, never an exception — and every page
opened by a failed attempt has been closed: no open page handle remains. -/
theorem navigate_all_fail_spec (goto : Nat → Option String) (retries : Nat)
    (hpos : 0 < retries) (hfail : ∀ a, a < retries → (goto a).isSome) :
    navigate_to_url goto retries = ⟨none, goto (retries - 1), retries, []⟩ := by
  obtain ⟨fuel, rfl⟩ : ∃ fuel, retries = fuel + 1 :=
    ⟨retries - 1, by omega⟩
  unfold navigate_to_url
  rw [navigate_loop_all_fail goto fuel 0 none (fun i hi => by
    rw [Nat.zero_add]
    exact hfail i (by omega))]
  simp

/-- Witness for C3: three attempts against a URL that always times out. -/
theorem navigate_all_fail_witness :
    navigate_to_url (fun _ => some "Timeout 30000ms exceeded") 3 =
      ⟨none, some "Timeout 30000ms exceeded", 3, []⟩ :=
  navigate_all_fail_spec (fun _ => some "Timeout 30000ms exceeded") 3
    (by decide) (fun a _ => rfl)

/-! ## Orchestrator: run-summary counting -/

/-- Claim C10: whenever the search collaborator returns a non-empty candidate
list, the run summary's `websites_scraped` field and its
"Successfully scraped N websites" message both report the total number of
candidate sites — the sites are arbitrary, so the count is independent of how
many of them failed navigation, extraction or persistence — and the run is
reported successful. -/
theorem run_summary_counts_all_sites (sites : List SiteSpec) (db : ProductTable)
    (h : sites ≠ []) :
    (run_scraper_agent sites db).1.websites_scraped = sites.length ∧
    (run_scraper_agent sites db).1.message
      = "Successfully scraped " ++ toString sites.length ++ " websites" ∧
    (run_scraper_agent sites db).1.success = true := by
  match sites, h with
  | s :: rest, _ =>
    simp [run_scraper_agent]

/-- Witness for C10: a two-site run where the first site fails navigation and
the second fails persistence still reports two websites scraped. -/
theorem run_summary_witness :
    (run_scraper_agent
        [⟨"https://one.test", some "net::ERR_CONNECTION_REFUSED", [], none⟩,
         ⟨"https://two.test", none, [recAcme], some 0⟩] []).1.websites_scraped = 2 ∧
    (run_scraper_agent
        [⟨"https://one.test", some "net::ERR_CONNECTION_REFUSED", [], none⟩,
         ⟨"https://two.test", none, [recAcme], some 0⟩] []).1.message
      = "Successfully scraped 2 websites" := by
  have h := run_summary_counts_all_sites
    [⟨"https://one.test", some "net::ERR_CONNECTION_REFUSED", [], none⟩,
     ⟨"https://two.test", none, [recAcme], some 0⟩] [] (by simp)
  exact ⟨h.1, h.2.1⟩

/-! ## Persistence lemmas -/

theorem save_loop_fst (db : ProductTable) (b : List ProductRec) :
    (save_loop db b).1 = b.filter (fun r => !existsKey db (keyOf r)) := by
  induction b with
  | nil => rfl
  | cons p ps ih =>
    simp only [save_loop, List.filter_cons]
    cases h : existsKey db (keyOf p) with
    | true => simp [h, ih]
    | false => simp [h, ih]

theorem save_loop_snd (db : ProductTable) (b : List ProductRec) :
    (save_loop db b).2 = (b.filter (fun r => !existsKey db (keyOf r))).length := by
  induction b with
  | nil => rfl
  | cons p ps ih =>
    simp only [save_loop, List.filter_cons]
    cases h : existsKey db (keyOf p) with
    | true => simp [h, ih]
    | false => simp [h, ih]

theorem save_products_fst (b : List ProductRec) (db : ProductTable) :
    (save_products b db).1 = db ++ b.filter (fun r => !existsKey db (keyOf r)) := by
  simp [save_products, save_loop_fst]

theorem save_products_snd (b : List ProductRec) (db : ProductTable) :
    (save_products b db).2 = (b.filter (fun r => !existsKey db (keyOf r))).length := by
  simp [save_products, save_loop_snd]

theorem existsKey_iff (db : ProductTable) (k : String × String) :
    existsKey db k = true ↔ ∃ r ∈ db, keyOf r = k := by
  simp [existsKey, List.any_eq_true]

theorem existsKey_false_iff (db : ProductTable) (k : String × String) :
    existsKey db k = false ↔ countKey db k = 0 := by
  rw [← Bool.not_eq_true, existsKey_iff]
  simp [countKey, List.countP_eq_zero]

theorem existsKey_true_of_countKey_one (db : ProductTable) (k : String × String)
    (h : countKey db k = 1) : existsKey db k = true := by
  rw [existsKey_iff]
  have hpos : 0 < db.countP (fun r => keyOf r == k) := by
    simp only [countKey] at h
    omega
  obtain ⟨r, hr, hrk⟩ := List.countP_pos_iff.mp hpos
  exact ⟨r, hr, beq_iff_eq.mp hrk⟩

theorem countKey_append (a b : ProductTable) (k : String × String) :
    countKey (a ++ b) k = countKey a k + countKey b k := by
  simp [countKey]

theorem countP_split {α : Type} (l : List α) (p q : α → Bool) :
    l.countP p = (l.filter q).countP p + (l.filter (fun a => !q a)).countP p := by
  induction l with
  | nil => rfl
  | cons a t ih =>
    cases h : q a <;> cases h2 : p a <;>
      simp [List.countP_cons, List.filter_cons, h, h2, ih] <;> omega

/-- Keys staged by `save_products` were absent from the committed table, so a
batch with pairwise-distinct keys preserves distinctness of the table's
keys. -/
theorem save_products_keys_nodup (db : ProductTable) (b : List ProductRec)
    (hdb : (db.map keyOf).Nodup) (hb : (b.map keyOf).Nodup) :
    ((save_products b db).1.map keyOf).Nodup := by
  rw [save_products_fst, List.map_append, List.nodup_append]
  refine ⟨hdb, ?_, ?_⟩
  · exact hb.sublist ((List.filter_sublist b).map keyOf)
  · intro x hx hx2
    obtain ⟨r, hr, hrk⟩ := List.mem_map.mp hx2
    obtain ⟨hrb, hrp⟩ := List.mem_filter.mp hr
    have hfalse : existsKey db (keyOf r) = false := by
      cases hek : existsKey db (keyOf r) with
      | false => rfl
      | true => rw [hek] at hrp; exact absurd hrp (by decide)
    obtain ⟨r2, hr2, hr2k⟩ := List.mem_map.mp hx
    have htrue : existsKey db (keyOf r) = true :=
      (existsKey_iff db (keyOf r)).mpr ⟨r2, hr2, by rw [hr2k, ← hrk]⟩
    rw [hfalse] at htrue
    exact Bool.noConfusion htrue

/-- Claim C1 (counterexample): a single upsert call whose batch holds the
same record twice inserts it twice — `autoflush=False` hides the first staged
insert from the second record's existence query, and the table has no unique
constraint — so after a second call with that record the store holds two rows
for the key, not one. -/
theorem save_products_duplicate_batch_counterexample :
    countKey (save_products [recAcme]
        (save_products [recAcme, recAcme] []).1).1 keyAcme = 2 ∧
    ¬countKey (save_products [recAcme]
        (save_products [recAcme, recAcme] []).1).1 keyAcme = 1 := by
  exact ⟨by decide, by decide⟩

/-- Claim C1 (amended): for a pair of upsert calls whose batches contain a
record with key `k` — provided the first batch contains exactly one record
with that key and each batch's keys are pairwise distinct — the store ends
with exactly one row for `k`: the first call inserts it and counts it (its
inserted-count is one more than for the batch without the `k`-records), the
second call finds the row and skips it (the `k`-records contribute 0 to its
inserted-count), and the keys of the resulting store remain pairwise
distinct. -/
theorem save_products_idempotency_amended
    (db : ProductTable) (b1 b2 : List ProductRec) (k : String × String)
    (hdb : (db.map keyOf).Nodup)
    (hk0 : countKey db k = 0)
    (hb1 : (b1.map keyOf).Nodup)
    (hb2 : (b2.map keyOf).Nodup)
    (hb1k : countKey b1 k = 1) :
    countKey (save_products b1 db).1 k = 1 ∧
    countKey (save_products b2 (save_products b1 db).1).1 k = 1 ∧
    (save_products b1 db).2
      = (save_products (b1.filter (fun r => !(keyOf r == k))) db).2 + 1 ∧
    (save_products b2 (save_products b1 db).1).2
      = (save_products (b2.filter (fun r => !(keyOf r == k)))
          (save_products b1 db).1).2 ∧
    ((save_products b2 (save_products b1 db).1).1.map keyOf).Nodup := by
  have hdbk : existsKey db k = false := (existsKey_false_iff db k).mpr hk0
  -- the k-records of b1 pass the not-yet-present filter
  have hs1 : countKey (save_products b1 db).1 k = 1 := by
    rw [save_products_fst, countKey_append, hk0, Nat.zero_add]
    simp only [countKey, List.countP_filter]
    have hcongr : b1.countP (fun r => keyOf r == k && !existsKey db (keyOf r))
        = b1.countP (fun r => keyOf r == k) := by
      apply List.countP_congr
      intro r _
      cases hkr : (keyOf r == k) with
      | false => simp
      | true =>
        have : keyOf r = k := beq_iff_eq.mp hkr
        rw [this, hdbk]
        simp
    rw [hcongr]
    exact hb1k
  have hs1t : existsKey (save_products b1 db).1 k = true :=
    existsKey_true_of_countKey_one _ _ hs1
  refine ⟨hs1, ?_, ?_, ?_, ?_⟩
  · -- the second call inserts no row for k
    rw [save_products_fst, countKey_append, hs1]
    simp only [countKey, List.countP_filter]
    have : b2.countP (fun r => keyOf r == k && !existsKey (save_products b1 db).1 (keyOf r)) = 0 := by
      rw [List.countP_eq_zero]
      intro r _ hcontra
      have h1 := (Bool.and_eq_true _ _).mp hcontra
      have hk : keyOf r = k := beq_iff_eq.mp h1.1
      rw [hk, hs1t] at h1
      exact absurd h1.2 (by decide)
    rw [this]
  · -- first call's count: the k-record contributes exactly 1
    rw [save_products_snd, save_products_snd,
      ← List.countP_eq_length_filter, ← List.countP_eq_length_filter,
      countP_split b1 (fun r => !existsKey db (keyOf r)) (fun r => keyOf r == k)]
    have hA : (b1.filter (fun r => keyOf r == k)).countP
        (fun r => !existsKey db (keyOf r)) = 1 := by
      rw [List.countP_filter]
      have hcongr : b1.countP (fun r => !existsKey db (keyOf r) && (keyOf r == k))
          = b1.countP (fun r => keyOf r == k) := by
        apply List.countP_congr
        intro r _
        cases hkr : (keyOf r == k) with
        | false => simp
        | true =>
          have : keyOf r = k := beq_iff_eq.mp hkr
          rw [this, hdbk]
          simp
      rw [hcongr]
      exact hb1k
    rw [hA]
    omega
  · -- second call's count: the k-records contribute 0
    rw [save_products_snd, save_products_snd,
      ← List.countP_eq_length_filter, ← List.countP_eq_length_filter,
      countP_split b2 (fun r => !existsKey (save_products b1 db).1 (keyOf r))
        (fun r => keyOf r == k)]
    have hA : (b2.filter (fun r => keyOf r == k)).countP
        (fun r => !existsKey (save_products b1 db).1 (keyOf r)) = 0 := by
      rw [List.countP_filter, List.countP_eq_zero]
      intro r _ hcontra
      have h1 := (Bool.and_eq_true _ _).mp hcontra
      have hk : keyOf r = k := beq_iff_eq.mp h1.2
      rw [hk, hs1t] at h1
      exact absurd h1.1 (by decide)
    rw [hA, Nat.zero_add]
  · exact save_products_keys_nodup _ _ (save_products_keys_nodup db b1 hdb hb1) hb2

/-- Witness for C1's amended statement: upserting the spec's example record
twice from an empty store leaves exactly one row for its key, with the second
call contributing no insert for it. -/
theorem save_products_idempotency_witness :
    countKey (save_products [recAcme] []).1 keyAcme = 1 ∧
    countKey (save_products [recAcme] (save_products [recAcme] []).1).1 keyAcme = 1 ∧
    (save_products [recAcme] (save_products [recAcme] []).1).2
      = (save_products ([recAcme].filter (fun r => !(keyOf r == keyAcme)))
          (save_products [recAcme] []).1).2 := by
  have h := save_products_idempotency_amended [] [recAcme] [recAcme] keyAcme
    (by decide) (by decide) (by decide) (by decide) (by decide)
  exact ⟨h.1, h.2.1, h.2.2.2.1⟩

/-! ## Transaction lemmas -/

theorem save_loop_tx_none (db : ProductTable) :
    ∀ (b : List ProductRec) (j : Nat),
      save_loop_tx db none j b = .ok (save_loop db b) := by
  intro b
  induction b with
  | nil => intro j; rfl
  | cons p ps ih =>
    intro j
    simp only [save_loop_tx, save_loop]
    rw [ih (j + 1)]
    cases h : existsKey db (keyOf p) <;> simp [h]

theorem save_loop_tx_fail (db : ProductTable) (i : Nat) :
    ∀ (b : List ProductRec) (j : Nat), j ≤ i → i < j + b.length →
      save_loop_tx db (some i) j b = .error "persistence failure" := by
  intro b
  induction b with
  | nil =>
    intro j h1 h2
    simp at h2
    omega
  | cons p ps ih =>
    intro j h1 h2
    by_cases hij : i = j
    · subst hij
      simp [save_loop_tx]
    · have hbeq : ((some i : Option Nat) == some j) = false := by
        simp [hij]
      simp only [save_loop_tx, hbeq, Bool.false_eq_true, if_false]
      rw [ih (j + 1) (by omega) (by simp at h2; omega)]

/-- Claim C2 (counterexample): a persistence failure does not abort the run —
with a first site whose second product's save raises and a second healthy
site, the loop continues to the second site and the run reports success for
both; moreover the failed site's first product stays committed (the
orchestrator saves one single-record batch per product, committing each). -/
theorem persistence_failure_continues_counterexample :
    (run_scraper_agent
        [⟨"https://one.test", none,
          [recAcme, ⟨"Cap", none, "USD", "https://one.test/p2", "One"⟩], some 1⟩,
         ⟨"https://two.test", none,
          [⟨"Mug", none, "USD", "https://two.test/p1", "Two"⟩], none⟩] []).1.success
      = true ∧
    (run_scraper_agent
        [⟨"https://one.test", none,
          [recAcme, ⟨"Cap", none, "USD", "https://one.test/p2", "One"⟩], some 1⟩,
         ⟨"https://two.test", none,
          [⟨"Mug", none, "USD", "https://two.test/p1", "Two"⟩], none⟩] []).1.message
      = "Successfully scraped 2 websites" ∧
    countKey (run_scraper_agent
        [⟨"https://one.test", none,
          [recAcme, ⟨"Cap", none, "USD", "https://one.test/p2", "One"⟩], some 1⟩,
         ⟨"https://two.test", none,
          [⟨"Mug", none, "USD", "https://two.test/p1", "Two"⟩], none⟩] []).2
      ("https://two.test/p1", "Two") = 1 ∧
    countKey (run_scraper_agent
        [⟨"https://one.test", none,
          [recAcme, ⟨"Cap", none, "USD", "https://one.test/p2", "One"⟩], some 1⟩,
         ⟨"https://two.test", none,
          [⟨"Mug", none, "USD", "https://two.test/p1", "Two"⟩], none⟩] []).2
      keyAcme = 1 ∧
    countKey (run_scraper_agent
        [⟨"https://one.test", none,
          [recAcme, ⟨"Cap", none, "USD", "https://one.test/p2", "One"⟩], some 1⟩,
         ⟨"https://two.test", none,
          [⟨"Mug", none, "USD", "https://two.test/p1", "Two"⟩], none⟩] []).2
      ("https://one.test/p2", "One") = 0 := by
  refine ⟨by decide, by decide, by decide, by decide, by decide⟩

/-- Claim C2 (amended): one `save_products` call processes its whole batch in
one transaction — an unexpected failure at any index inside the batch
surfaces as an error with the committed table unchanged (every staged insert
of the batch rolled back, nothing committed early), and on normal completion
the staged inserts are committed at once by the single commit at the end of
the call; the surfaced failure is, however, caught by the orchestrator's
per-site handler, so the run always continues and still reports success for a
non-empty site list rather than aborting. -/
theorem persistence_transaction_amended :
    (∀ (b : List ProductRec) (db : ProductTable) (i : Nat), i < b.length →
      run_save_tx b db (some i) = (db, .error "persistence failure")) ∧
    (∀ (b : List ProductRec) (db : ProductTable),
      run_save_tx b db none = ((save_products b db).1, .ok (save_products b db).2)) ∧
    (∀ (sites : List SiteSpec) (db : ProductTable), sites ≠ [] →
      (run_scraper_agent sites db).1.success = true) := by
  refine ⟨fun b db i h => ?_, fun b db => ?_, fun sites db h => ?_⟩
  · unfold run_save_tx save_products_tx
    rw [save_loop_tx_fail db i b 0 (by omega) (by omega)]
  · unfold run_save_tx save_products_tx
    rw [save_loop_tx_none]
    rfl
  · match sites, h with
    | s :: rest, _ => simp [run_scraper_agent]

/-- Witness for C2's amended statement: a mid-batch failure leaves an empty
store empty and surfaces the error; the same batch without failure commits
both records at once; a run over one failing site still succeeds. -/
theorem persistence_transaction_witness :
    run_save_tx [recAcme, ⟨"Cap", none, "USD", "https://one.test/p2", "One"⟩] []
        (some 1) = ([], .error "persistence failure") ∧
    run_save_tx [recAcme, ⟨"Cap", none, "USD", "https://one.test/p2", "One"⟩] []
        none
      = ((save_products [recAcme, ⟨"Cap", none, "USD", "https://one.test/p2", "One"⟩] []).1,
         .ok (save_products [recAcme, ⟨"Cap", none, "USD", "https://one.test/p2", "One"⟩] []).2) ∧
    (run_scraper_agent [⟨"https://one.test", none, [recAcme], some 0⟩] []).1.success
      = true := by
  refine ⟨persistence_transaction_amended.1 _ [] 1 (by decide),
          persistence_transaction_amended.2.1 _ [],
          persistence_transaction_amended.2.2 _ [] (by simp)⟩

end SmartWebscraper
